import Mathlib

/-!
Shallow embedding of the session cache & conversation reconciliation
subsystem of the playground-rag front end.

Sources:
* `SessionList` (in `src/front/src/App.tsx`): the Session Cache —
  `loadSessions`, `updateSessionList`, `deleteSession`.
* the session-aware `ChatBot` (`src/unnamed/part_000`): the Conversation
  Controller — `createNewSession`, `handleSendMessage`.
* `App.handleSessionUpdate` (`src/front/src/App.tsx`): the Reconciliation
  Bridge wiring.

Conventions of the embedding: JavaScript strings are Lean `String`s
(`s.substring(0, 30)` is `String.take 30`, `s.length` is `String.length`);
JS numbers used as counts are `Nat`; `Date.now()` / `new Date()` are an
explicit `now` parameter threaded through each operation; `localStorage`
and React state are explicit arguments and results; a `fetch` and its
parsed body are an explicit outcome argument (the code never inspects
anything else of the response).
-/

/-- `SessionSummary` from `App.tsx` (the cache entry type):
`{ session_id, title, lastMessage, messageCount, updated_at }`. -/
structure SessionSummary where
  session_id : String
  title : String
  lastMessage : String
  messageCount : Nat
  updated_at : String
deriving Repr, DecidableEq

/-- The title truncation written inline (twice) in `updateSessionList`:
`lastMessage.length > 30 ? lastMessage.substring(0, 30) + '...' : lastMessage`.
Note the source appends three ASCII full stops `'...'`, not the one-character
ellipsis. -/
def truncateTitle (lastMessage : String) : String :=
  if lastMessage.length > 30 then lastMessage.take 30 ++ "..." else lastMessage

/-- `updateSessionList(sessionId, lastMessage)` from `App.tsx` lines 172-210,
acting on the `sessions` state (`prevSessions`).  The source finds the first
entry with this `session_id` (`findIndex`); if found it rebuilds that entry —
reassigning `title` only when `messageCount === 0`, otherwise keeping it —
sets `lastMessage`, increments `messageCount`, stamps `updated_at`, then
splices the entry out and unshifts it to the front.  If not found it unshifts
a fresh entry with `messageCount = 1`.  `find?`/`eraseP` reproduce
`findIndex`/`splice` on the first matching index. -/
def updateSessionList (prevSessions : List SessionSummary)
    (sessionId lastMessage now : String) : List SessionSummary :=
  match prevSessions.find? (fun s => s.session_id == sessionId) with
  | some existingSession =>
      let updated : SessionSummary :=
        { existingSession with
          title := if existingSession.messageCount == 0
                   then truncateTitle lastMessage
                   else existingSession.title
          lastMessage := lastMessage
          messageCount := existingSession.messageCount + 1
          updated_at := now }
      updated :: prevSessions.eraseP (fun s => s.session_id == sessionId)
  | none =>
      { session_id := sessionId
        title := truncateTitle lastMessage
        lastMessage := lastMessage
        messageCount := 1
        updated_at := now } :: prevSessions

/-- The cache mutation of `deleteSession` (`App.tsx` lines 224-228):
`prevSessions.filter(s => s.session_id !== sessionId)`. -/
def deleteSessionUpdate (prevSessions : List SessionSummary)
    (sessionId : String) : List SessionSummary :=
  prevSessions.filter (fun s => s.session_id != sessionId)

example : truncateTitle "hello" = "hello" := by decide

example :
    (updateSessionList [] "A" "hello" "t1").map SessionSummary.session_id
      = ["A"] := by decide

/-! ### The persisted cache read (`loadSessions`)

`loadSessions` (`App.tsx` lines 156-170) reads `localStorage.getItem
('chatSessions')`; when the key is present it runs `JSON.parse` on the
string inside a `try`: a parse exception is caught (logged) and the
`sessions` state is left as it was; a successful parse is installed with
`setSessions(sessionList)` with **no schema validation** — whatever JSON
value the string denoted becomes the state.  When the key is absent
(`getItem` returned `null`) the `if (storedSessions)` guard skips the
update.  We embed the parsed-JSON level: `Json` is the value space of
`JSON.parse`, and the stored content is `none` (key absent), `some none`
(string present but `JSON.parse` throws — non-JSON text), or
`some (some j)` (the string parses to the JSON value `j`; e.g. the stored
string `"42"` gives `some (some (Json.num 42))`). -/

/-- A JSON value, the result space of `JSON.parse`.  Numbers are embedded
as `Int` (no claim depends on fractional values). -/
inductive Json where
  | null : Json
  | bool (b : Bool) : Json
  | num (n : Int) : Json
  | str (s : String) : Json
  | arr (elems : List Json) : Json
  | obj (fields : List (String × Json)) : Json
deriving Repr

/-- `loadSessions` as a state transformer: from the stored content and the
previous `sessions` state to the new `sessions` state.  The state lives in
`Json` because the source installs the parse result unchecked; the initial
React state `useState([])` is `Json.arr []`.  The function is total: no
branch raises. -/
def loadSessions (stored : Option (Option Json)) (prev : Json) : Json :=
  match stored with
  | none => prev
  | some none => prev
  | some (some sessionList) => sessionList

/-- Field lookup in a JSON object, as JS property access on the parsed
value: the first binding of the key wins. -/
def Json.getField (fields : List (String × Json)) (key : String) : Option Json :=
  (fields.find? (fun p => p.1 == key)).map Prod.snd

/-- Whether a JSON value is a string. -/
def Json.isStr : Json → Bool
  | .str _ => true
  | _ => false

/-- Whether a JSON value is a number. -/
def Json.isNum : Json → Bool
  | .num _ => true
  | _ => false

/-- The schema of one `SessionSummary` entry, read off the TypeScript
interface in `App.tsx`: an object with string fields `session_id`, `title`,
`lastMessage`, `updated_at` and a numeric `messageCount`. -/
def Json.isSummary : Json → Bool
  | .obj fields =>
      ((Json.getField fields "session_id").map Json.isStr).getD false &&
      ((Json.getField fields "title").map Json.isStr).getD false &&
      ((Json.getField fields "lastMessage").map Json.isStr).getD false &&
      ((Json.getField fields "messageCount").map Json.isNum).getD false &&
      ((Json.getField fields "updated_at").map Json.isStr).getD false
  | _ => false

/-- The schema of the persisted cache: an array of `SessionSummary`
objects. -/
def Json.isSummaryList : Json → Bool
  | .arr elems => elems.all Json.isSummary
  | _ => false

/-! ### The Conversation Controller (session-aware `ChatBot`, `src/unnamed/part_000`) -/

/-- A citation source attached to an assistant message
(`{ page, source }`). -/
structure SourceRef where
  page : String
  source : String
deriving Repr, DecidableEq

/-- `Message` from `part_000`: `{ id, text, isUser, timestamp, sources? }`.
`timestamp : Nat` stands for the `Date` value. -/
structure ChatMessage where
  id : String
  text : String
  isUser : Bool
  timestamp : Nat
  sources : Option (List SourceRef) := none
deriving Repr, DecidableEq

/-- `ChatResponse.data` from `part_000`. -/
structure ChatData where
  answer : String
  sources : List SourceRef
  query : String
  session_id : Option String := none
deriving Repr, DecidableEq

/-- `ChatResponse` from `part_000`:
`{ success, message, data?, error? }`. -/
structure ChatResponse where
  success : Bool
  message : String
  data : Option ChatData := none
  error : Option String := none
deriving Repr, DecidableEq

/-- A remote transcript message `{ role, content, timestamp }` from the
`ChatSession` interface in `part_000`. -/
structure RemoteMessage where
  role : String
  content : String
  timestamp : String
deriving Repr, DecidableEq

/-- `ChatSession` from `part_000`: the body of the session-store `create`
and `fetch` responses. -/
structure ChatSession where
  session_id : String
  messages : List RemoteMessage := []
  created_at : String := ""
  updated_at : String := ""
deriving Repr, DecidableEq

/-- The component state of the session-aware `ChatBot` that the analysed
handlers read and write: `messages`, `inputValue`, `sessionId`.
(`isLoading` is set `true` on entry to the `try` and reset in `finally`,
so every handler returns with it `false`; it only gates the UI.) -/
structure ChatBotState where
  messages : List ChatMessage
  inputValue : String
  sessionId : Option String
deriving Repr, DecidableEq

/-- The outcome of a `fetch` as the handlers observe it: the promise
rejected (network error), the response arrived with `response.ok` false,
or it arrived OK and its body parsed to `body`. -/
inductive FetchOutcome (α : Type) where
  | networkError : FetchOutcome α
  | httpError : FetchOutcome α
  | ok (body : α) : FetchOutcome α
deriving Repr, DecidableEq

/-- JS `String.prototype.trim`: the string without leading and trailing
whitespace, written structurally on the character list so it evaluates in
the kernel. -/
def jsTrim (s : String) : String :=
  ⟨((s.data.dropWhile Char.isWhitespace).reverse.dropWhile
      Char.isWhitespace).reverse⟩

/-- JS truthiness of a nullable string (`null`/`undefined` and `''` are
falsy). -/
def jsTruthy : Option String → Bool
  | none => false
  | some s => s != ""

/-- JS `a || b` on a string `a`: `a` unless it is empty. -/
def jsOrStr (a b : String) : String :=
  if a == "" then b else a

/-- JS `a || b` on a nullable string `a`. -/
def jsOrOpt (a : Option String) (b : String) : String :=
  match a with
  | none => b
  | some s => jsOrStr s b

/-- The greeting seeded when `createNewSession` succeeds
(`part_000` line 100). -/
def greetingSuccessText : String :=
  "안녕하세요! PDF와 관련하여 궁금한 점이 있으시면 언제든 물어보세요. 대화를 이어가며 더 자세한 질문도 하실 수 있습니다."

/-- The greeting seeded in the `catch` of `createNewSession`
(`part_000` line 110). -/
def greetingFailureText : String :=
  "안녕하세요! PDF와 관련하여 궁금한 점이 있으시면 언제든 물어보세요."

/-- The fixed apology appended when the chat request throws or returns a
non-OK status (`part_000` line 218). -/
def apologyText : String :=
  "죄송합니다. 서버와의 연결에 문제가 발생했습니다."

/-- The fallback text when a failure body carries neither `message` nor
`error` (`part_000` line 209). -/
def noResponseText : String :=
  "응답을 받지 못했습니다."

/-- `createNewSession` (`part_000` lines 86-115).  On `response.ok` it sets
`sessionId` to the returned id and replaces `messages` with the single
success greeting; the `if (response.ok)` has **no else branch**, so a non-OK
response changes nothing; the `catch` replaces `messages` with the shorter
failure greeting and does not touch `sessionId`.  No branch rethrows. -/
def createNewSession (st : ChatBotState) (outcome : FetchOutcome ChatSession)
    (now : Nat) : ChatBotState :=
  match outcome with
  | .ok session =>
      { st with
        sessionId := some session.session_id
        messages := [{ id := "1", text := greetingSuccessText,
                       isUser := false, timestamp := now }] }
  | .httpError => st
  | .networkError =>
      { st with
        messages := [{ id := "1", text := greetingFailureText,
                       isUser := false, timestamp := now }] }

/-- The optimistic user message `handleSendMessage` appends before the
request (`part_000` lines 155-160); its `id` is `Date.now().toString()`. -/
def userMessage (text : String) (now : Nat) : ChatMessage :=
  { id := toString now, text := text, isUser := true, timestamp := now }

/-- The error message appended when the response body is not a success
(`part_000` lines 207-212): `data.message || data.error || '응답을 받지
못했습니다.'`. -/
def bodyErrorMessage (data : ChatResponse) (now : Nat) : ChatMessage :=
  { id := toString (now + 1)
    text := jsOrStr data.message (jsOrOpt data.error noResponseText)
    isUser := false, timestamp := now }

/-- The apology message appended in the `catch` (`part_000` lines
216-221). -/
def apologyMessage (now : Nat) : ChatMessage :=
  { id := toString (now + 1), text := apologyText,
    isUser := false, timestamp := now }

/-- The result of one `handleSendMessage` run: the new component state and
the `onSessionUpdate(sessionId, lastMessage)` invocations it issued (the
Reconciliation Bridge calls), in order. -/
structure SendResult where
  state : ChatBotState
  bridgeCalls : List (String × String)
deriving Repr, DecidableEq

/-- `handleSendMessage` (`part_000` lines 152-226), with `onSessionUpdate`
provided (as in the composed `App`).  `if (!inputValue.trim()) return` is
the empty-input no-op.  Otherwise the user message is appended, the input
cleared, and the request issued.  Inside one run the local `sessionId`
binding keeps the value captured when the handler was created:
`setSessionId(data.data.session_id)` schedules the **next** state and does
not change the binding, so both the later guard
`if (onSessionUpdate && sessionId)` and the argument passed to
`onSessionUpdate` still see the pre-send value `st.sessionId`.
`if (!response.ok) throw` funnels an HTTP error into the same `catch` as a
network error.  The success branch requires `data.success && data.data`
(truthy body object). -/
def handleSendMessage (st : ChatBotState)
    (outcome : FetchOutcome ChatResponse) (now : Nat) : SendResult :=
  if jsTrim st.inputValue == "" then
    { state := st, bridgeCalls := [] }
  else
    let messageToSend := st.inputValue
    let messages1 := st.messages ++ [userMessage messageToSend now]
    match outcome with
    | .networkError =>
        { state := { st with messages := messages1 ++ [apologyMessage now],
                             inputValue := "" }
          bridgeCalls := [] }
    | .httpError =>
        { state := { st with messages := messages1 ++ [apologyMessage now],
                             inputValue := "" }
          bridgeCalls := [] }
    | .ok data =>
        match data.data, data.success with
        | some d, true =>
            let newSessionId :=
              if jsTruthy d.session_id && !(jsTruthy st.sessionId)
              then d.session_id else st.sessionId
            let botMessage : ChatMessage :=
              { id := toString (now + 1), text := d.answer, isUser := false,
                timestamp := now, sources := some d.sources }
            let bridgeCalls :=
              match st.sessionId with
              | some sid => if sid != "" then [(sid, messageToSend)] else []
              | none => []
            { state := { messages := messages1 ++ [botMessage],
                         inputValue := "", sessionId := newSessionId }
              bridgeCalls := bridgeCalls }
        | _, _ =>
            { state := { st with
                         messages := messages1 ++ [bodyErrorMessage data now],
                         inputValue := "" }
              bridgeCalls := [] }

/-- `App.handleSessionUpdate` (`App.tsx` lines 35-45), the Reconciliation
Bridge: forwards `(sessionId, lastMessage)` to
`SessionList.updateSessionList` and, when no session is currently selected
(`!currentSessionId`), promotes the id to the selection. -/
def handleSessionUpdate (sessions : List SessionSummary)
    (currentSessionId : Option String) (sessionId lastMessage now : String) :
    List SessionSummary × Option String :=
  (updateSessionList sessions sessionId lastMessage now,
   if jsTruthy currentSessionId then currentSessionId else some sessionId)

/-- Folding a `handleSendMessage` run's bridge calls into the cache, each
via `updateSessionList` (what the `App` wiring does with them). -/
def applyBridgeCalls (cache : List SessionSummary)
    (calls : List (String × String)) (now : String) : List SessionSummary :=
  calls.foldl (fun c p => updateSessionList c p.1 p.2 now) cache

/-- Iterated upserts of the same session id: each pair of `msgs` is a
`(lastMessage, now)` for one `updateSessionList` call. -/
def upsertSeq (st : List SessionSummary) (sessionId : String)
    (msgs : List (String × String)) : List SessionSummary :=
  msgs.foldl (fun c p => updateSessionList c sessionId p.1 p.2) st

/-- Cache states reachable from the empty cache by the two mutating cache
operations. -/
inductive ReachableCache : List SessionSummary → Prop where
  | empty : ReachableCache []
  | upsert (sessionId lastMessage now : String) {st : List SessionSummary} :
      ReachableCache st → ReachableCache (updateSessionList st sessionId lastMessage now)
  | remove (sessionId : String) {st : List SessionSummary} :
      ReachableCache st → ReachableCache (deleteSessionUpdate st sessionId)

/-! ## Helper lemmas about the cache operations -/

lemma updateSessionList_of_find?_none {st : List SessionSummary}
    {sessionId : String} (lastMessage now : String)
    (h : st.find? (fun s => s.session_id == sessionId) = none) :
    updateSessionList st sessionId lastMessage now =
      { session_id := sessionId, title := truncateTitle lastMessage
        lastMessage := lastMessage, messageCount := 1, updated_at := now } :: st := by
  simp only [updateSessionList, h]

lemma updateSessionList_of_find?_some {st : List SessionSummary}
    {sessionId : String} {e : SessionSummary} (lastMessage now : String)
    (h : st.find? (fun s => s.session_id == sessionId) = some e) :
    updateSessionList st sessionId lastMessage now =
      { e with
        title := if e.messageCount == 0 then truncateTitle lastMessage else e.title
        lastMessage := lastMessage
        messageCount := e.messageCount + 1
        updated_at := now } :: st.eraseP (fun s => s.session_id == sessionId) := by
  simp only [updateSessionList, h]

lemma map_sessionId_eraseP (st : List SessionSummary) (sessionId : String) :
    (st.eraseP (fun s => s.session_id == sessionId)).map SessionSummary.session_id
      = (st.map SessionSummary.session_id).erase sessionId := by
  induction st with
  | nil => rfl
  | cons hd tl ih =>
      by_cases hhd : hd.session_id == sessionId
      · simp [List.eraseP_cons, List.erase_cons, hhd]
      · simp only [Bool.not_eq_true] at hhd
        simp [List.eraseP_cons, List.erase_cons, hhd, ih]

lemma filter_ne_eraseP (st : List SessionSummary) (sessionId : String) :
    (st.eraseP (fun s => s.session_id == sessionId)).filter
        (fun s => s.session_id != sessionId)
      = st.filter (fun s => s.session_id != sessionId) := by
  induction st with
  | nil => rfl
  | cons hd tl ih =>
      by_cases hhd : hd.session_id == sessionId
      · have heq : hd.session_id = sessionId := beq_iff_eq.mp hhd
        simp [List.eraseP_cons, List.filter_cons, hhd, heq]
      · simp only [Bool.not_eq_true] at hhd
        simp [List.eraseP_cons, List.filter_cons, hhd, ih]

/-! ## Claims -/

set_option maxRecDepth 4096 in
/-- **C4** (counterexample).  The claim says a too-long `lastMessage`
yields `title = lastMessage[0:30] + "…"` with the single ellipsis
character.  The source appends the three-character ASCII string `"..."`
instead: on the 31-character input below the two differ. -/
theorem truncation_ellipsis_counterexample :
    truncateTitle "aaaaaaaaaaaaaaaaaaaaaaaaaaaaaaa"
        ≠ "aaaaaaaaaaaaaaaaaaaaaaaaaaaaaa" ++ "…" ∧
    truncateTitle "aaaaaaaaaaaaaaaaaaaaaaaaaaaaaaa"
        = "aaaaaaaaaaaaaaaaaaaaaaaaaaaaaa" ++ "..." := by
  constructor
  · decide
  · decide

/-- **C4** (amended).  When `upsert` assigns a title for a fresh id, the
title is `truncateTitle lastMessage`; and the truncation appends the
three ASCII full stops `"..."` (not the one-character ellipsis `"…"`)
after the first 30 characters when `lastMessage.length > 30`, and returns
`lastMessage` verbatim when `lastMessage.length ≤ 30`. -/
theorem truncation_law (st : List SessionSummary) (sessionId lastMessage now : String)
    (habsent : st.find? (fun s => s.session_id == sessionId) = none) :
    ((updateSessionList st sessionId lastMessage now).head?).map SessionSummary.title
        = some (truncateTitle lastMessage) ∧
    (30 < lastMessage.length →
        truncateTitle lastMessage = lastMessage.take 30 ++ "...") ∧
    (lastMessage.length ≤ 30 → truncateTitle lastMessage = lastMessage) := by
  refine ⟨?_, ?_, ?_⟩
  · rw [updateSessionList_of_find?_none lastMessage now habsent]
    rfl
  · intro h
    simp only [truncateTitle, if_pos h]
  · intro h
    simp only [truncateTitle, if_neg (by omega : ¬ lastMessage.length > 30)]

/-- Witness for `truncation_law` at concrete inputs. -/
theorem truncation_law_witness :
    ((updateSessionList [] "A" "hello" "t").head?).map SessionSummary.title
        = some (truncateTitle "hello") ∧
    truncateTitle "hello" = "hello" := by
  have h := truncation_law [] "A" "hello" "t" rfl
  exact ⟨h.1, h.2.2 (by decide)⟩

/-- **C5**.  `upsert` maintains the order by move-to-front: the resulting
id sequence is the upserted id followed by the previous id sequence with
that id's (first) occurrence removed — an existing id is relocated to the
front, a new id is inserted at the front.  In particular
`upsert(A); upsert(B); upsert(A)` from the empty cache yields `[A, B]`. -/
theorem upsert_moveToFront :
    (∀ (st : List SessionSummary) (sessionId lastMessage now : String),
      (updateSessionList st sessionId lastMessage now).map SessionSummary.session_id
        = sessionId :: (st.map SessionSummary.session_id).erase sessionId) ∧
    (updateSessionList
        (updateSessionList (updateSessionList [] "A" "m1" "t1") "B" "m2" "t2")
        "A" "m3" "t3").map SessionSummary.session_id = ["A", "B"] := by
  constructor
  · intro st sessionId lastMessage now
    cases hfind : st.find? (fun s => s.session_id == sessionId) with
    | none =>
        rw [updateSessionList_of_find?_none lastMessage now hfind]
        have habs : sessionId ∉ st.map SessionSummary.session_id := by
          intro hmem
          obtain ⟨e, he, hid⟩ := List.mem_map.mp hmem
          exact (List.find?_eq_none.mp hfind e he) (beq_iff_eq.mpr hid)
        rw [List.map_cons, List.erase_of_not_mem habs]
    | some e =>
        have hid : e.session_id = sessionId := by
          have := List.find?_some hfind
          simpa using this
        rw [updateSessionList_of_find?_some lastMessage now hfind]
        simp only [List.map_cons, map_sessionId_eraseP, hid]
  · decide

/-- **C10**.  Frame property of `upsert`: the entries whose `session_id`
differs from the upserted id — their fields and their relative order —
are exactly preserved. -/
theorem upsert_frame (st : List SessionSummary) (sessionId lastMessage now : String) :
    (updateSessionList st sessionId lastMessage now).filter
        (fun s => s.session_id != sessionId)
      = st.filter (fun s => s.session_id != sessionId) := by
  cases hfind : st.find? (fun s => s.session_id == sessionId) with
  | none =>
      rw [updateSessionList_of_find?_none lastMessage now hfind]
      simp [List.filter_cons]
  | some e =>
      have hid : e.session_id = sessionId := by
        have := List.find?_some hfind
        simpa using this
      rw [updateSessionList_of_find?_some lastMessage now hfind]
      simp [List.filter_cons, hid, filter_ne_eraseP]

/-- **C8**.  `remove` on an id with no matching entry leaves the sequence
unchanged, and in general keeps exactly the entries whose `session_id`
differs from the removed id. -/
theorem remove_absent_noop (st : List SessionSummary) (sessionId : String) :
    ((∀ e ∈ st, e.session_id ≠ sessionId) → deleteSessionUpdate st sessionId = st) ∧
    (∀ e, e ∈ deleteSessionUpdate st sessionId ↔ e ∈ st ∧ e.session_id ≠ sessionId) := by
  constructor
  · intro h
    exact List.filter_eq_self.mpr fun e he => bne_iff_ne.mpr (h e he)
  · intro e
    simp [deleteSessionUpdate, List.mem_filter]

/-- Witness for `remove_absent_noop` at a concrete cache and id. -/
theorem remove_absent_noop_witness :
    deleteSessionUpdate
        [{ session_id := "B", title := "b", lastMessage := "b",
           messageCount := 1, updated_at := "t" }] "A"
      = [{ session_id := "B", title := "b", lastMessage := "b",
           messageCount := 1, updated_at := "t" }] :=
  (remove_absent_noop _ "A").1 (by decide)

/-- The invariant carried through a run of same-id upserts: the entry for
`sessionId` sits at the front, already titled `title`, with a nonzero
message count. -/
def HeadTitled (sessionId title : String) (c : List SessionSummary) : Prop :=
  ∃ u tl, c = u :: tl ∧ u.session_id = sessionId ∧ u.title = title ∧
    u.messageCount ≠ 0

lemma headTitled_upsert {sessionId title : String} {c : List SessionSummary}
    (h : HeadTitled sessionId title c) (lastMessage now : String) :
    HeadTitled sessionId title (updateSessionList c sessionId lastMessage now) := by
  obtain ⟨u, tl, rfl, hid, ht, hc⟩ := h
  have hfind : (u :: tl).find? (fun s => s.session_id == sessionId) = some u :=
    List.find?_cons_of_pos tl (by simp [hid])
  rw [updateSessionList_of_find?_some lastMessage now hfind]
  have hb : (u.messageCount == 0) = false := beq_eq_false_iff_ne.mpr hc
  exact ⟨_, _, rfl, hid, by simp [hb, ht], by simp⟩

lemma headTitled_upsertSeq {sessionId title : String}
    (msgs : List (String × String)) :
    ∀ {c : List SessionSummary}, HeadTitled sessionId title c →
      HeadTitled sessionId title (upsertSeq c sessionId msgs) := by
  induction msgs with
  | nil => intro c h; exact h
  | cons p rest ih =>
      intro c h
      exact ih (headTitled_upsert h p.1 p.2)

/-- **C3**.  Starting from a cache with no entry for `sessionId`, after
`upsert(sessionId, m1)` followed by any further upserts for the same id,
the entry for `sessionId` carries `title = truncateTitle m1`: the title is
assigned from the first message and never overwritten. -/
theorem title_immutable (st : List SessionSummary) (sessionId m1 now1 : String)
    (rest : List (String × String))
    (habsent : ∀ e ∈ st, e.session_id ≠ sessionId) :
    ((upsertSeq (updateSessionList st sessionId m1 now1) sessionId rest).find?
        (fun s => s.session_id == sessionId)).map SessionSummary.title
      = some (truncateTitle m1) := by
  have hfind : st.find? (fun s => s.session_id == sessionId) = none :=
    List.find?_eq_none.mpr fun e he => by simpa using habsent e he
  have h0 : HeadTitled sessionId (truncateTitle m1)
      (updateSessionList st sessionId m1 now1) := by
    rw [updateSessionList_of_find?_none m1 now1 hfind]
    exact ⟨_, _, rfl, rfl, rfl, one_ne_zero⟩
  obtain ⟨u, tl, heq, hid, ht, _⟩ := headTitled_upsertSeq rest h0
  rw [heq, List.find?_cons_of_pos tl (by simp [hid])]
  simp [ht]

/-- Witness for `title_immutable` at a concrete run. -/
theorem title_immutable_witness :
    ((upsertSeq (updateSessionList [] "A" "hello" "t1") "A" [("world", "t2")]).find?
        (fun s => s.session_id == "A")).map SessionSummary.title
      = some (truncateTitle "hello") :=
  title_immutable [] "A" "hello" "t1" [("world", "t2")]
    (fun e he => absurd he (List.not_mem_nil e))

lemma messageCount_updateSessionList (st : List SessionSummary)
    (sessionId lastMessage now : String)
    (h : ∀ e ∈ st, 1 ≤ e.messageCount) :
    ∀ e ∈ updateSessionList st sessionId lastMessage now, 1 ≤ e.messageCount := by
  intro e' he'
  cases hfind : st.find? (fun s => s.session_id == sessionId) with
  | none =>
      rw [updateSessionList_of_find?_none lastMessage now hfind] at he'
      rcases List.mem_cons.mp he' with rfl | hmem
      · exact le_refl 1
      · exact h e' hmem
  | some e =>
      rw [updateSessionList_of_find?_some lastMessage now hfind] at he'
      rcases List.mem_cons.mp he' with rfl | hmem
      · simp
      · exact h e' ((List.eraseP_sublist st).subset hmem)

lemma messageCount_deleteSessionUpdate (st : List SessionSummary)
    (sessionId : String) (h : ∀ e ∈ st, 1 ≤ e.messageCount) :
    ∀ e ∈ deleteSessionUpdate st sessionId, 1 ≤ e.messageCount :=
  fun e' he' => h e' (List.mem_filter.mp he').1

/-- **C9**.  Every entry of a cache reachable from the empty cache by
`upsert`/`remove` has `messageCount ≥ 1`; consequently an `upsert` that
finds an existing entry in a reachable cache never takes the
`messageCount === 0` title-reassignment branch: the front entry of the
result keeps the found entry's title. -/
theorem reachable_messageCount_pos {st : List SessionSummary}
    (h : ReachableCache st) :
    (∀ e ∈ st, 1 ≤ e.messageCount) ∧
    (∀ sessionId lastMessage now e,
        st.find? (fun s => s.session_id == sessionId) = some e →
        ((updateSessionList st sessionId lastMessage now).head?).map
            SessionSummary.title
          = some e.title) := by
  have main : ∀ e ∈ st, 1 ≤ e.messageCount := by
    induction h with
    | empty => intro e he; exact absurd he (List.not_mem_nil e)
    | upsert sid m now _ ih => exact messageCount_updateSessionList _ sid m now ih
    | remove sid _ ih => exact messageCount_deleteSessionUpdate _ sid ih
  refine ⟨main, ?_⟩
  intro sessionId lastMessage now e hfind
  have hc : e.messageCount ≠ 0 := by
    have := main e (List.mem_of_find?_eq_some hfind)
    omega
  have hb : (e.messageCount == 0) = false := beq_eq_false_iff_ne.mpr hc
  rw [updateSessionList_of_find?_some lastMessage now hfind]
  simp [hb]

/-- Witness for `reachable_messageCount_pos`: the cache after one upsert
on the empty cache is reachable and its entry has a positive count. -/
theorem reachable_messageCount_pos_witness :
    1 ≤ ({ session_id := "A", title := "hello", lastMessage := "hello",
           messageCount := 1, updated_at := "t1" } : SessionSummary).messageCount := by
  have h := reachable_messageCount_pos
      (ReachableCache.upsert "A" "hello" "t1" ReachableCache.empty)
  exact h.1 _ (by decide)

set_option maxRecDepth 16384 in
/-- **C6** (counterexample).  The claim says a failed `create()` seeds the
transcript with the same greeting as the success path.  On a network error
the source seeds a different, shorter greeting. -/
theorem create_failure_greeting_counterexample :
    (createNewSession { messages := [], inputValue := "", sessionId := none }
        .networkError 0).messages.map ChatMessage.text = [greetingFailureText] ∧
    greetingFailureText ≠ greetingSuccessText := by
  exact ⟨rfl, by decide⟩

set_option maxRecDepth 16384 in
/-- **C6** (amended).  Session-creation failure is non-fatal (the model is
total), but the two failure modes are: a network error keeps `sessionId`
unchanged (null stays null) and seeds a greeting that is a strict shorter
variant of the success greeting (the success text minus its final
sentence); a non-OK HTTP response changes nothing at all — the
`if (response.ok)` has no else branch. -/
theorem create_failure_behavior (st : ChatBotState) (now : Nat) :
    (createNewSession st .networkError now).sessionId = st.sessionId ∧
    (createNewSession st .networkError now).messages
        = [{ id := "1", text := greetingFailureText, isUser := false,
             timestamp := now }] ∧
    createNewSession st .httpError now = st ∧
    greetingSuccessText
        = greetingFailureText ++ " 대화를 이어가며 더 자세한 질문도 하실 수 있습니다." := by
  exact ⟨rfl, rfl, rfl, by decide⟩

/-- **C7** (counterexample).  The claim says a schema-invalid stored value
yields an empty sequence.  The stored string `"42"` is valid JSON (so
`JSON.parse` does not throw) but schema-invalid; `loadSessions` installs
the parsed value verbatim, which is not the empty sequence. -/
theorem load_schemaInvalid_counterexample :
    loadSessions (some (some (Json.num 42))) (Json.arr []) = Json.num 42 ∧
    Json.num 42 ≠ Json.arr [] ∧
    Json.isSummaryList (Json.num 42) = false :=
  ⟨rfl, fun h => Json.noConfusion h, rfl⟩

/-- **C7** (amended).  `loadSessions` is total (never raises).  From the
initial empty state: an absent stored value or one `JSON.parse` throws on
leaves the empty sequence; but any successfully parsed JSON value is
installed verbatim with no schema validation, so a schema-invalid stored
value is not mapped to the empty sequence. -/
theorem loadSessions_behavior (j prev : Json) :
    loadSessions none (Json.arr []) = Json.arr [] ∧
    loadSessions (some none) (Json.arr []) = Json.arr [] ∧
    loadSessions (some (some j)) prev = j :=
  ⟨rfl, rfl, rfl⟩

/-- **C1** (code-bug exhibit).  A `send("hello")` that starts with
`sessionId = null` and succeeds with a response carrying
`session_id = "s1"`: the state adopts `"s1"` and appends the assistant
answer, yet `bridgeCalls` is empty — the guard
`if (onSessionUpdate && sessionId)` reads the stale closure `sessionId`
(still `null`), so the Reconciliation Bridge is never invoked and no cache
entry is created for the first exchange of the adopted session. -/
theorem send_adopted_session_bridge_not_invoked :
    (handleSendMessage { messages := [], inputValue := "hello", sessionId := none }
        (.ok { success := true, message := "ok",
               data := some { answer := "hi there", sources := [],
                              query := "hello", session_id := some "s1" } })
        5).state.sessionId = some "s1" ∧
    (handleSendMessage { messages := [], inputValue := "hello", sessionId := none }
        (.ok { success := true, message := "ok",
               data := some { answer := "hi there", sources := [],
                              query := "hello", session_id := some "s1" } })
        5).state.messages.map (fun m => (m.text, m.isUser))
      = [("hello", true), ("hi there", false)] ∧
    (handleSendMessage { messages := [], inputValue := "hello", sessionId := none }
        (.ok { success := true, message := "ok",
               data := some { answer := "hi there", sources := [],
                              query := "hello", session_id := some "s1" } })
        5).bridgeCalls = [] ∧
    applyBridgeCalls []
      (handleSendMessage { messages := [], inputValue := "hello", sessionId := none }
        (.ok { success := true, message := "ok",
               data := some { answer := "hi there", sources := [],
                              query := "hello", session_id := some "s1" } })
        5).bridgeCalls "t" = [] :=
  ⟨rfl, rfl, rfl, rfl⟩

/-- **C2** (counterexample).  The claim says every failed send appends the
one fixed apology message.  When the body reports `success = false` the
source appends `data.message || data.error || fallback` instead: here the
transcript gains `"nope"`, not the apology. -/
theorem send_bodyFailure_not_apology :
    (handleSendMessage { messages := [], inputValue := "hello", sessionId := none }
        (.ok { success := false, message := "nope" }) 5).state.messages.map
        ChatMessage.text = ["hello", "nope"] ∧
    "nope" ≠ apologyText ∧
    (handleSendMessage { messages := [], inputValue := "hello", sessionId := none }
        (.ok { success := false, message := "nope" }) 5).bridgeCalls = [] :=
  ⟨rfl, by decide, rfl⟩

/-- **C2** (amended).  For a non-empty input, a failed send appends the
optimistic user message plus exactly one error message: the fixed apology
when the request throws or the HTTP status is non-OK, and
`data.message || data.error || fallback` when the body is not a success
(`success = false` or no `data`).  In every failure case no bridge call is
issued, so folding the run's bridge calls into any cache leaves it
unchanged. -/
theorem send_failure_behavior (st : ChatBotState) (now : Nat)
    (h : jsTrim st.inputValue ≠ "") :
    ((handleSendMessage st .networkError now).state.messages
        = st.messages ++ [userMessage st.inputValue now, apologyMessage now] ∧
      (handleSendMessage st .networkError now).bridgeCalls = [] ∧
      ∀ cache nowS, applyBridgeCalls cache
          (handleSendMessage st .networkError now).bridgeCalls nowS = cache) ∧
    ((handleSendMessage st .httpError now).state.messages
        = st.messages ++ [userMessage st.inputValue now, apologyMessage now] ∧
      (handleSendMessage st .httpError now).bridgeCalls = [] ∧
      ∀ cache nowS, applyBridgeCalls cache
          (handleSendMessage st .httpError now).bridgeCalls nowS = cache) ∧
    (∀ resp : ChatResponse, resp.data = none ∨ resp.success = false →
      (handleSendMessage st (.ok resp) now).state.messages
          = st.messages ++ [userMessage st.inputValue now, bodyErrorMessage resp now] ∧
      (handleSendMessage st (.ok resp) now).bridgeCalls = [] ∧
      ∀ cache nowS, applyBridgeCalls cache
          (handleSendMessage st (.ok resp) now).bridgeCalls nowS = cache) := by
  have hbeq : (jsTrim st.inputValue == "") = false := beq_eq_false_iff_ne.mpr h
  refine ⟨⟨?_, ?_, ?_⟩, ⟨?_, ?_, ?_⟩, ?_⟩
  · simp [handleSendMessage, hbeq, List.append_assoc]
  · simp [handleSendMessage, hbeq]
  · intro cache nowS
    simp [handleSendMessage, hbeq, applyBridgeCalls]
  · simp [handleSendMessage, hbeq, List.append_assoc]
  · simp [handleSendMessage, hbeq]
  · intro cache nowS
    simp [handleSendMessage, hbeq, applyBridgeCalls]
  · intro resp hresp
    rcases hresp with hd | hs
    · cases hsucc : resp.success <;>
        refine ⟨?_, ?_, fun cache nowS => ?_⟩ <;>
        simp [handleSendMessage, hbeq, hd, hsucc, applyBridgeCalls,
              List.append_assoc]
    · cases hd : resp.data <;>
        refine ⟨?_, ?_, fun cache nowS => ?_⟩ <;>
        simp [handleSendMessage, hbeq, hd, hs, applyBridgeCalls,
              List.append_assoc]

/-- Witness for `send_failure_behavior` at a concrete state and outcome. -/
theorem send_failure_behavior_witness :
    (handleSendMessage { messages := [], inputValue := "hello", sessionId := none }
        .networkError 5).state.messages
      = [userMessage "hello" 5, apologyMessage 5] := by
  have h := send_failure_behavior
      { messages := [], inputValue := "hello", sessionId := none } 5 (by decide)
  exact h.1.1
